import Mathlib

/- Shallow embedding of the AquaLens HMPI server (src/server).
   services.py gives STANDARDS, clean_metal_data, calculate_hmpi and
   process_csv_data; database.py gives the store tables and the operations
   save_dataset, save_samples, update_city_summaries, find_or_create_city,
   get_city_data, get_nearby_cities, compare_cities and delete_dataset;
   routes.py gives the upload and download paths.
   Machine floats are modelled as rationals; a float NaN, and a missing cell,
   is the constructor CellVal.nan; the IEEE infinities are CellVal.inf and
   CellVal.neginf; CellVal.text covers the strings that pd.to_numeric cannot
   parse (a numeric string is modelled as already parsed to CellVal.num,
   which is what pd.read_csv does on ingestion). -/

inductive Metal : Type
  | lead
  | cadmium
  | arsenic
  | mercury
  | chromium
  | nickel
  | copper
  | zinc
  | iron
  | manganese
  | aluminum
  | antimony
  | selenium
  | uranium
  | thallium
  deriving DecidableEq

/-- Column header of each metal, as in the STANDARDS dict of services.py. -/
def Metal.name : Metal → String
  | .lead => "Lead"
  | .cadmium => "Cadmium"
  | .arsenic => "Arsenic"
  | .mercury => "Mercury"
  | .chromium => "Chromium"
  | .nickel => "Nickel"
  | .copper => "Copper"
  | .zinc => "Zinc"
  | .iron => "Iron"
  | .manganese => "Manganese"
  | .aluminum => "Aluminum"
  | .antimony => "Antimony"
  | .selenium => "Selenium"
  | .uranium => "Uranium"
  | .thallium => "Thallium"

/-- Regulatory standard (mg/L) of each metal, the values of STANDARDS. -/
def Metal.standard : Metal → ℚ
  | .lead => 1/100
  | .cadmium => 3/1000
  | .arsenic => 1/100
  | .mercury => 1/1000
  | .chromium => 1/20
  | .nickel => 7/100
  | .copper => 2
  | .zinc => 3
  | .iron => 3/10
  | .manganese => 2/5
  | .aluminum => 1/5
  | .antimony => 1/50
  | .selenium => 1/25
  | .uranium => 3/100
  | .thallium => 1/1000

/-- The fifteen recognized metals, in the iteration order of the STANDARDS
dict of services.py. -/
def STANDARDS : List Metal :=
  [.lead, .cadmium, .arsenic, .mercury, .chromium, .nickel, .copper, .zinc,
   .iron, .manganese, .aluminum, .antimony, .selenium, .uranium, .thallium]

inductive CellVal : Type
  | nan
  | num (q : ℚ)
  | inf
  | neginf
  | text (s : String)
  deriving DecidableEq

/-- Tabular batch: a pandas DataFrame with named columns and rows of cells
aligned positionally with the column list. -/
structure DataFrame where
  cols : List String
  rows : List (List CellVal)
  deriving DecidableEq

/-- Label access row[c]: the cell under the first column named c, NaN when no
column has that name (pandas would raise; the claims never need that case). -/
def getCell (cols : List String) (r : List CellVal) (c : String) : CellVal :=
  match List.findIdx? (fun x => x == c) cols with
  | some i => r.getD i CellVal.nan
  | none => CellVal.nan

def metalNames : List String := STANDARDS.map Metal.name

def isMetalCol (c : String) : Bool := metalNames.contains c

/-- Cleaning of one metal cell, services.py line 39 to 41: coerce to numeric
with errors to NaN, then keep only values that are nonnegative and finite. -/
def cleanCell : CellVal → CellVal
  | CellVal.num q => if 0 ≤ q then CellVal.num q else CellVal.nan
  | _ => CellVal.nan

/-- clean_metal_data applied to one row: every cell in a recognized metal
column is cleaned, every other cell is untouched. -/
def cleanRow (cols : List String) (r : List CellVal) : List CellVal :=
  List.zipWith (fun c v => if isMetalCol c then cleanCell v else v) cols r

def clean_metal_data (df : DataFrame) : DataFrame :=
  ⟨df.cols, df.rows.map (cleanRow df.cols)⟩

/-- Value of metal m in a cleaned row when m contributes to the index:
the column is present and the cleaned cell is a number above zero
(services.py line 56; the float finiteness guards of lines 59 and 66 are
identically true over the rationals). -/
def metalValue (cols : List String) (r : List CellVal) (m : Metal) : Option ℚ :=
  if cols.contains m.name then
    match getCell cols r m.name with
    | CellVal.num q => if 0 < q then some q else none
    | _ => none
  else none

/-- Accumulation loop of services.py lines 51 to 68: the pair
(total_weighted, total_weights). -/
def rowTotals (cols : List String) (r : List CellVal) : ℚ × ℚ :=
  STANDARDS.foldl
    (fun acc m =>
      match metalValue cols r m with
      | some q => (acc.1 + q / m.standard * 100 * (1 / m.standard), acc.2 + 1 / m.standard)
      | none => acc)
    (0, 0)

/-- Python round(x, 2). Exact ties round to even in Python; the round of
Mathlib rounds them up; no claim is decided at an exact tie. -/
def round2 (q : ℚ) : ℚ := (round (q * 100) : ℤ) / 100

/-- Python round(x, 1), used for the nearby distance display. -/
def round1 (q : ℚ) : ℚ := (round (q * 10) : ℤ) / 10

/-- Classification thresholds of services.py lines 79 to 86. -/
def classify (h : ℚ) : String :=
  if h < 100 then "Low Pollution"
  else if h < 200 then "Moderate Pollution"
  else if h < 300 then "High Pollution"
  else "Very High Pollution"

/-- Per row result of calculate_hmpi on an already cleaned row: the HMPI
value appended to the HMPI column (rounded to two decimals) and the label.
The label is computed from the unrounded quotient, the stored value from the
rounded one (services.py lines 71 to 96). -/
def hmpiRow (cols : List String) (r : List CellVal) : Option ℚ × String :=
  let t := rowTotals cols r
  if 0 < t.2 then (some (round2 (t.1 / t.2)), classify (t.1 / t.2))
  else (none, "No Data")

def hmpiCell : Option ℚ → CellVal
  | some q => CellVal.num q
  | none => CellVal.nan

def enhanceRow (cols : List String) (r : List CellVal) : List CellVal :=
  let rc := cleanRow cols r
  let p := hmpiRow cols rc
  rc ++ [hmpiCell p.1, CellVal.text p.2]

/-- calculate_hmpi: clean the metal columns in place, then append the HMPI
and Classification columns. -/
def calculate_hmpi (df : DataFrame) : DataFrame :=
  ⟨df.cols ++ ["HMPI", "Classification"], df.rows.map (enhanceRow df.cols)⟩

def requiredColumns : List String := ["Latitude", "Longitude", "City"]

/-- process_csv_data: validate the required columns and the presence of at
least one recognized metal column, then compute the index. -/
def process_csv_data (df : DataFrame) : Except String DataFrame :=
  if requiredColumns.all (fun c => df.cols.contains c) then
    if STANDARDS.any (fun m => df.cols.contains m.name) then
      Except.ok (calculate_hmpi df)
    else Except.error ("CSV must contain at least one heavy metal column")
  else Except.error ("CSV must contain the required columns")

unseal Rat.add Rat.mul Rat.inv Rat.sub in
example : classify 150 = "Moderate Pollution" := by decide

unseal Rat.add Rat.mul Rat.inv Rat.sub in
example :
    hmpiRow ["Lead"] [CellVal.num (1/20)] = (some 500, "Very High Pollution") := by
  decide

unseal Rat.add Rat.mul Rat.inv Rat.sub in
example :
    hmpiRow ["City", "Lead"] [CellVal.text ("A"), CellVal.nan] = (none, "No Data") := by
  decide

/- The store of database.py: the five SQLite tables, with rowids modelled by
explicit counters. Timestamps are abstract natural numbers. -/

structure City where
  id : ℕ
  name : String
  state : String
  country : String
  lat : ℚ
  lon : ℚ
  deriving DecidableEq

structure SampleRec where
  sampleId : String
  cityId : ℕ
  lat : ℚ
  lon : ℚ
  hmpi : Option ℚ
  classification : Option String
  uploadDate : ℕ
  deriving DecidableEq

structure DatasetSampleRec where
  datasetId : ℕ
  sampleId : String
  cityId : ℕ
  lat : ℚ
  lon : ℚ
  hmpi : Option ℚ
  classification : Option String
  rawRow : List CellVal
  deriving DecidableEq

structure Metadata where
  columns : List String
  metalsAnalyzed : List String
  citiesCount : ℕ
  pollutionDistribution : List (CellVal × ℕ)
  deriving DecidableEq

structure DatasetRec where
  id : ℕ
  name : String
  description : String
  originalFilename : String
  totalSamples : ℕ
  enhancedCsv : String
  metadata : Metadata
  deriving DecidableEq

structure SummaryRec where
  cityId : ℕ
  latestHmpi : Option ℚ
  latestClassification : Option String
  totalSamples : ℕ
  lastUpdated : ℕ
  deriving DecidableEq

structure DB where
  cities : List City
  samples : List SampleRec
  citySummary : List SummaryRec
  datasets : List DatasetRec
  datasetSamples : List DatasetSampleRec
  nextCityId : ℕ
  nextDatasetId : ℕ
  deriving DecidableEq

def emptyDB : DB :=
  { cities := [], samples := [], citySummary := [], datasets := [],
    datasetSamples := [], nextCityId := 0, nextDatasetId := 0 }

def cellNum : CellVal → Option ℚ
  | CellVal.num q => some q
  | _ => none

def cellStr : CellVal → Option String
  | CellVal.text s => some s
  | _ => none

/-- Proximity test of the dedup query: ABS(latitude - lat) < 0.05 AND
ABS(longitude - lon) < 0.05. -/
def near (lat lon : ℚ) (c : City) : Bool :=
  decide (|c.lat - lat| < 1/20) && decide (|c.lon - lon| < 1/20)

/-- SELECT id FROM cities WHERE ... LIMIT 1: the first city in insertion
order inside the proximity box. -/
def findNearbyCity (cities : List City) (lat lon : ℚ) : Option City :=
  cities.find? (near lat lon)

/-- ASCII whitespace test of the Python strip and of the trim used below. -/
def wsChar (c : Char) : Bool := c == ' ' || c == '\t' || c == '\n' || c == '\r'

/-- Python str.strip, implemented over the character list so that concrete
store states evaluate inside the kernel (the core String.trim is built on
well founded loops that do not reduce). -/
def strStrip (s : String) : String :=
  String.mk (((s.data.dropWhile wsChar).reverse.dropWhile wsChar).reverse)

def charLower (c : Char) : Char :=
  if 65 <= c.toNat && c.toNat <= 90 then Char.ofNat (c.toNat + 32) else c

/-- SQL LOWER and Python str.lower for the ASCII names the store holds,
implemented over the character list for the same kernel evaluation reason. -/
def strLower (s : String) : String := String.mk (s.data.map charLower)

/-- Test pd.notna(city) and city.strip() of the save paths; the stripped name
when the cell is a usable label. A non-string cell also fails the write in
the source (AttributeError on strip, caught and re-raised), so it is modelled
by the same error outcome as a blank label. -/
def cityLabel : CellVal → Option String
  | CellVal.text s => if strStrip s == "" then none else some (strStrip s)
  | _ => none

/-- One iteration of the city resolution loop shared by save_samples
(database.py lines 144 to 173) and save_dataset (lines 504 to 530): find a
city in the box, else create one from the provided label, else fail. -/
def resolveCityId (cities : List City) (nextId : ℕ) (lat lon : ℚ) (cityCell : CellVal) :
    Except String (List City × ℕ × ℕ) :=
  match findNearbyCity cities lat lon with
  | some c => Except.ok (cities, nextId, c.id)
  | none =>
    match cityLabel cityCell with
    | some nm =>
        Except.ok (cities ++
          [{ id := nextId, name := nm, state := "Unknown State",
             country := "Unknown Country", lat := lat, lon := lon }],
          nextId + 1, nextId)
    | none => Except.error ("City name is required but empty or missing")

structure ResolvedRow where
  row : List CellVal
  cityId : ℕ
  lat : ℚ
  lon : ℚ
  deriving DecidableEq

/-- The per-row loop of the two save paths: resolve every row in order
against the evolving city table. An exception at any row aborts the whole
transaction, so an error here yields no store change at all. -/
def resolveRows (cols : List String) :
    List (List CellVal) → List City → ℕ →
    Except String (List City × ℕ × List ResolvedRow)
  | [], cities, nid => Except.ok (cities, nid, [])
  | r :: rs, cities, nid =>
    match cellNum (getCell cols r ("Latitude")), cellNum (getCell cols r ("Longitude")) with
    | some lat, some lon =>
      (match resolveCityId cities nid lat lon (getCell cols r ("City")) with
       | Except.ok (cities2, nid2, cid) =>
         (match resolveRows cols rs cities2 nid2 with
          | Except.ok (cities3, nid3, rest) =>
              Except.ok (cities3, nid3,
                { row := r, cityId := cid, lat := lat, lon := lon } :: rest)
          | Except.error e => Except.error e)
       | Except.error e => Except.error e)
    | _, _ => Except.error ("sample coordinates must be numeric")

/-- df.to_csv rendering of one cell; NaN becomes the empty field. -/
def renderCell : CellVal → String
  | CellVal.nan => ""
  | CellVal.num q => toString q
  | CellVal.inf => "inf"
  | CellVal.neginf => "-inf"
  | CellVal.text s => s

def serializeDF (df : DataFrame) : String :=
  String.intercalate ("\n")
    (String.intercalate (",") df.cols ::
      df.rows.map (fun r => String.intercalate (",") (r.map renderCell)))

/-- The hard coded metal list of the metadata block of save_dataset
(database.py line 481): ten names, not the fifteen of STANDARDS. -/
def tenMetalNames : List String :=
  ["Lead", "Cadmium", "Arsenic", "Mercury", "Chromium", "Nickel", "Copper",
   "Zinc", "Iron", "Manganese"]

def colValues (df : DataFrame) (c : String) : List CellVal :=
  df.rows.map (fun r => getCell df.cols r c)

/-- Series.nunique: the number of distinct non-NaN values. -/
def nunique (l : List CellVal) : ℕ :=
  ((l.filter (fun v => v != CellVal.nan)).dedup).length

/-- Series.value_counts().to_dict(): each distinct non-NaN value with its
count (pandas orders by descending count; no claim depends on the order, and
first appearance order is used here). -/
def valueCounts (l : List CellVal) : List (CellVal × ℕ) :=
  ((l.filter (fun v => v != CellVal.nan)).dedup).map (fun v => (v, l.count v))

def mkMetadata (df : DataFrame) : Metadata :=
  { columns := df.cols,
    metalsAnalyzed := df.cols.filter (fun c => tenMetalNames.contains c),
    citiesCount := if df.cols.contains ("City") then nunique (colValues df ("City")) else 0,
    pollutionDistribution :=
      if df.cols.contains ("Classification") then valueCounts (colValues df ("Classification"))
      else [] }

/-- row.get of the Sampleid column, with the time based default replaced by a
fixed placeholder (wall clock time is not modelled). -/
def sampleIdOf (cols : List String) (r : List CellVal) : String :=
  if cols.contains ("Sampleid") then renderCell (getCell cols r ("Sampleid"))
  else "S_default"

def datasetSampleOfRow (did : ℕ) (cols : List String) (rr : ResolvedRow) : DatasetSampleRec :=
  { datasetId := did, sampleId := sampleIdOf cols rr.row, cityId := rr.cityId,
    lat := rr.lat, lon := rr.lon,
    hmpi := cellNum (getCell cols rr.row ("HMPI")),
    classification := cellStr (getCell cols rr.row ("Classification")),
    rawRow := rr.row }

def sampleOfRow (cols : List String) (date : ℕ) (rr : ResolvedRow) : SampleRec :=
  { sampleId := sampleIdOf cols rr.row, cityId := rr.cityId, lat := rr.lat, lon := rr.lon,
    hmpi := cellNum (getCell cols rr.row ("HMPI")),
    classification := cellStr (getCell cols rr.row ("Classification")),
    uploadDate := date }

/-- The SQLite bare column rule pairs the grouped hmpi and classification
with a row attaining MAX(upload_date); on equal dates SQLite leaves the
choice open and the model takes the last such row in table order. -/
def latestSample : List SampleRec → Option SampleRec :=
  List.foldl
    (fun acc s =>
      match acc with
      | none => some s
      | some b => if b.uploadDate ≤ s.uploadDate then some s else some b)
    none

def maxDate (l : List SampleRec) : ℕ := (l.map (fun s => s.uploadDate)).foldl max 0

/-- update_city_summaries (database.py lines 203 to 229): DELETE FROM
city_summary then INSERT one row per city from the rows of the samples table
whose hmpi_value IS NOT NULL, grouped by city. The source reads the samples
table, not dataset_samples. -/
def rebuildSummary (samples : List SampleRec) : List SummaryRec :=
  let valid := samples.filter (fun s => s.hmpi.isSome)
  ((valid.map (fun s => s.cityId)).dedup).filterMap (fun cid =>
    let grp := valid.filter (fun s => s.cityId == cid)
    match latestSample grp with
    | some latest =>
        some { cityId := cid, latestHmpi := latest.hmpi,
               latestClassification := latest.classification,
               totalSamples := grp.length, lastUpdated := maxDate grp }
    | none => none)

def update_city_summaries (db : DB) : DB :=
  { db with citySummary := rebuildSummary db.samples }

/-- save_dataset (database.py lines 468 to 554): serialize the enhanced
batch, store the dataset record and metadata, resolve every row to a city,
store the dataset samples, then rebuild the summaries. Any exception rolls
the transaction back, which the error branch models by returning no store. -/
def save_dataset (db : DB) (df : DataFrame) (name filename description : String) :
    Except String (DB × ℕ) :=
  if db.datasets.any (fun d => d.name == name) then
    Except.error ("UNIQUE constraint failed on the dataset name")
  else
    match resolveRows df.cols df.rows db.cities db.nextCityId with
    | Except.ok (cities2, nid2, rrs) =>
      let did := db.nextDatasetId
      let dsRec : DatasetRec :=
        { id := did, name := name, description := description, originalFilename := filename,
          totalSamples := df.rows.length, enhancedCsv := serializeDF df,
          metadata := mkMetadata df }
      let db2 : DB :=
        { db with cities := cities2, nextCityId := nid2, nextDatasetId := did + 1,
                  datasets := db.datasets ++ [dsRec],
                  datasetSamples := db.datasetSamples ++ rrs.map (datasetSampleOfRow did df.cols) }
      Except.ok (update_city_summaries db2, did)
    | Except.error e => Except.error e

/-- save_samples (database.py lines 135 to 201), the write path into the
samples table; date is the shared upload timestamp of the batch. -/
def save_samples (db : DB) (df : DataFrame) (date : ℕ) : Except String DB :=
  match resolveRows df.cols df.rows db.cities db.nextCityId with
  | Except.ok (cities2, nid2, rrs) =>
      Except.ok (update_city_summaries
        { db with cities := cities2, nextCityId := nid2,
                  samples := db.samples ++ rrs.map (sampleOfRow df.cols date) })
  | Except.error e => Except.error e

/-- find_or_create_city (database.py lines 101 to 133); geo is the reverse
geocoding collaborator, already reduced to the extracted name triple, with
None for every failure mode (timeout, no result, missing fields). -/
def find_or_create_city (db : DB) (geo : ℚ → ℚ → Option (String × String × String))
    (lat lon : ℚ) : DB × ℕ :=
  match findNearbyCity db.cities lat lon with
  | some c => (db, c.id)
  | none =>
    let info := (geo lat lon).getD ("Unknown City", "Unknown State", "Unknown Country")
    ({ db with
        cities := db.cities ++
          [{ id := db.nextCityId, name := info.1, state := info.2.1,
             country := info.2.2, lat := lat, lon := lon }],
        nextCityId := db.nextCityId + 1 },
     db.nextCityId)

def delete_dataset (db : DB) (did : ℕ) : DB :=
  { db with datasetSamples := db.datasetSamples.filter (fun s => s.datasetId != did),
            datasets := db.datasets.filter (fun d => d.id != did) }

/-- The upload route (routes.py lines 23 to 61): process the batch, then save
it as a named dataset. -/
def upload_csv (db : DB) (df : DataFrame) (name filename description : String) :
    Except String (DB × ℕ) :=
  match process_csv_data df with
  | Except.ok df2 => save_dataset db df2 name filename description
  | Except.error e => Except.error e

/-- The download route (routes.py lines 89 to 106) returns the stored
enhanced_csv_data of the dataset, unchanged. -/
def download_dataset_csv (db : DB) (did : ℕ) : Option String :=
  (db.datasets.find? (fun d => d.id == did)).map (fun d => d.enhancedCsv)

/- Query layer of database.py: city lookup, two city comparison, nearby
search. -/

/-- Occurrence test of sub inside hay, the LIKE percent pattern of the city
lookup query. -/
def strContainsSub (hay sub : String) : Bool :=
  (List.range (hay.data.length + 1)).any (fun i => sub.data.isPrefixOf (hay.data.drop i))

/-- WHERE LOWER(name) LIKE LOWER(percent label percent). -/
def cityMatches (label : String) (c : City) : Bool :=
  strContainsSub (strLower c.name) (strLower label)

/-- First city whose name contains the label, case insensitively, in
insertion order (LIMIT 1 of database.py line 239). -/
def findCityByLabel (db : DB) (label : String) : Option City :=
  db.cities.find? (cityMatches label)

def citySamplesWithData (db : DB) (cid : ℕ) : List SampleRec :=
  db.samples.filter (fun s => s.cityId == cid && s.hmpi.isSome)

/-- ORDER BY upload_date DESC; SQLite leaves the order of equal dates open
and the model uses a stable-enough insertion sort. -/
def insertDescByDate (s : SampleRec) : List SampleRec → List SampleRec
  | [] => [s]
  | b :: bs => if b.uploadDate < s.uploadDate then s :: b :: bs else b :: insertDescByDate s bs

def sortDescByDate (l : List SampleRec) : List SampleRec := l.foldr insertDescByDate []

def listMinQ : List ℚ → ℚ
  | [] => 0
  | q :: qs => qs.foldl min q

def listMaxQ : List ℚ → ℚ
  | [] => 0
  | q :: qs => qs.foldl max q

structure CityStats where
  totalSamples : ℕ
  latestHmpi : ℚ
  latestClassification : Option String
  hmpiMin : ℚ
  hmpiMax : ℚ
  hmpiAverage : ℚ
  deriving DecidableEq

inductive CityLookup
  | withData (c : City) (stats : CityStats)
  | noData (c : City)
  | geocoded (lat lon : ℚ)
  | notFound
  deriving DecidableEq

/-- get_city_data (database.py lines 231 to 319); geo is the forward
geocoding collaborator used only when no stored city matches. -/
def get_city_data (db : DB) (geo : String → Option (ℚ × ℚ)) (label : String) : CityLookup :=
  match findCityByLabel db label with
  | some c =>
    (match sortDescByDate (citySamplesWithData db c.id) with
     | [] => CityLookup.noData c
     | s0 :: rest =>
       let vals := (s0 :: rest).filterMap (fun s => s.hmpi)
       CityLookup.withData c
         { totalSamples := (s0 :: rest).length,
           latestHmpi := s0.hmpi.getD 0,
           latestClassification := s0.classification,
           hmpiMin := listMinQ vals, hmpiMax := listMaxQ vals,
           hmpiAverage := round2 (vals.sum / (vals.length : ℚ)) })
  | none =>
    match geo label with
    | some p => CityLookup.geocoded p.1 p.2
    | none => CityLookup.notFound

structure Comparison where
  city1Name : String
  city1Stats : CityStats
  city2Name : String
  city2Stats : CityStats
  cleanerCity : String
  pollutionDifference : ℚ
  deriving DecidableEq

inductive CompareResult
  | err (msg : String)
  | ok (c : Comparison)
  deriving DecidableEq

/-- compare_cities (database.py lines 387 to 441). -/
def compare_cities (db : DB) (geo : String → Option (ℚ × ℚ)) (l1 l2 : String) :
    CompareResult :=
  match get_city_data db geo l1 with
  | CityLookup.withData c1 st1 =>
    (match get_city_data db geo l2 with
     | CityLookup.withData c2 st2 =>
        if st1.hmpiAverage < st2.hmpiAverage then
          CompareResult.ok
            { city1Name := c1.name, city1Stats := st1, city2Name := c2.name,
              city2Stats := st2, cleanerCity := c1.name,
              pollutionDifference := round2 (st2.hmpiAverage - st1.hmpiAverage) }
        else if st2.hmpiAverage < st1.hmpiAverage then
          CompareResult.ok
            { city1Name := c1.name, city1Stats := st1, city2Name := c2.name,
              city2Stats := st2, cleanerCity := c2.name,
              pollutionDifference := round2 (st1.hmpiAverage - st2.hmpiAverage) }
        else
          CompareResult.ok
            { city1Name := c1.name, city1Stats := st1, city2Name := c2.name,
              city2Stats := st2,
              cleanerCity := "Both cities have similar pollution levels",
              pollutionDifference := 0 }
     | _ => CompareResult.err ("No data available for " ++ l2))
  | _ => CompareResult.err ("No data available for " ++ l1)

structure NearbyEntry where
  city : String
  state : String
  lat : ℚ
  lon : ℚ
  distanceKm : ℚ
  sampleCount : ℕ
  averageHmpi : ℚ
  hmpiMin : ℚ
  hmpiMax : ℚ
  averageClassification : String
  deriving DecidableEq

/-- The ranking key of the nearby query: (ABS(dlat) + ABS(dlon)) * 111. -/
def distKey (t c : City) : ℚ := (|c.lat - t.lat| + |c.lon - t.lon|) * 111

def insertAscByDist (t : City) (c : City) : List City → List City
  | [] => [c]
  | b :: bs => if distKey t c < distKey t b then c :: b :: bs else b :: insertAscByDist t c bs

/-- ORDER BY distance_km ASC (order of equal keys again left open by SQLite;
the model keeps table order on ties). -/
def sortByDist (t : City) (l : List City) : List City := l.foldr (insertAscByDist t) []

def hasDataSample (db : DB) (cid : ℕ) : Bool :=
  db.samples.any (fun s => s.cityId == cid && s.hmpi.isSome)

/-- Selection predicate of the nearby query (database.py lines 344 to 347):
inside the degree box, name different from the QUERIED LABEL case
insensitively, and joined to at least one sample with a non-null index. -/
def nearbyFilter (db : DB) (t : City) (label : String) (rdeg : ℚ) (c : City) : Bool :=
  decide (|c.lat - t.lat| ≤ rdeg) && decide (|c.lon - t.lon| ≤ rdeg)
    && (strLower c.name != strLower label) && hasDataSample db c.id

def entryOf (db : DB) (t : City) (c : City) : NearbyEntry :=
  let vals := (citySamplesWithData db c.id).filterMap (fun s => s.hmpi)
  let avg := vals.sum / (vals.length : ℚ)
  { city := c.name, state := c.state, lat := c.lat, lon := c.lon,
    distanceKm := round1 (distKey t c),
    sampleCount := vals.length, averageHmpi := round2 avg,
    hmpiMin := listMinQ vals, hmpiMax := listMaxQ vals,
    averageClassification := classify avg }

/-- get_nearby_cities (database.py lines 321 to 385), reduced to the list of
result entries; none when the label resolves to no stored city (both the
geocoded and the not-found shapes of get_city_data make the source return
None, since neither carries a city_center key). -/
def get_nearby_cities (db : DB) (label : String) (radiusKm : ℚ) :
    Option (List NearbyEntry) :=
  match findCityByLabel db label with
  | none => none
  | some t =>
      let rdeg := radiusKm / 111
      some (((sortByDist t (db.cities.filter (nearbyFilter db t label rdeg))).take 10).map
        (entryOf db t))

/-- Store states reachable through the write paths of the source, from a
fresh database. -/
inductive Reachable : DB → Prop
  | empty : Reachable emptyDB
  | stepUpload (db : DB) (df : DataFrame) (n f d : String) (db2 : DB) (did : ℕ) :
      Reachable db → save_dataset db df n f d = Except.ok (db2, did) → Reachable db2
  | stepSamples (db : DB) (df : DataFrame) (date : ℕ) (db2 : DB) :
      Reachable db → save_samples db df date = Except.ok db2 → Reachable db2
  | stepFindOrCreate (db : DB) (geo : ℚ → ℚ → Option (String × String × String))
      (lat lon : ℚ) :
      Reachable db → Reachable (find_or_create_city db geo lat lon).1
  | stepDelete (db : DB) (did : ℕ) : Reachable db → Reachable (delete_dataset db did)

/- Claim-side formulation of the per-row index: the weighted mean over the
contributing metals. -/

/-- The recognized metals of a (cleaned) row whose column is present and
whose cleaned value is a finite number above zero. -/
def contributingMetals (cols : List String) (r : List CellVal) : List Metal :=
  STANDARDS.filter (fun m => (metalValue cols r m).isSome)

def subIndexOf (cols : List String) (r : List CellVal) (m : Metal) : ℚ :=
  (metalValue cols r m).getD 0 / m.standard * 100

def weightOf (m : Metal) : ℚ := 1 / m.standard

/-- The weighted mean of the claim: sum of sub_index times weight over the
contributing metals, divided by the sum of the weights. -/
def hmpiFormula (cols : List String) (r : List CellVal) : ℚ :=
  ((contributingMetals cols r).map (fun m => subIndexOf cols r m * weightOf m)).sum /
    ((contributingMetals cols r).map weightOf).sum

theorem rowTotals_eq (cols : List String) (r : List CellVal) :
    rowTotals cols r =
      (((contributingMetals cols r).map (fun m => subIndexOf cols r m * weightOf m)).sum,
       ((contributingMetals cols r).map weightOf).sum) := by
  have key : ∀ (l : List Metal) (a b : ℚ),
      l.foldl
        (fun acc m =>
          match metalValue cols r m with
          | some q => (acc.1 + q / m.standard * 100 * (1 / m.standard), acc.2 + 1 / m.standard)
          | none => acc)
        (a, b) =
      (a + ((l.filter (fun m => (metalValue cols r m).isSome)).map
              (fun m => subIndexOf cols r m * weightOf m)).sum,
       b + ((l.filter (fun m => (metalValue cols r m).isSome)).map weightOf).sum) := by
    intro l
    induction l with
    | nil => intro a b; simp
    | cons m ms ih =>
      intro a b
      cases hm : metalValue cols r m with
      | none => simp only [List.foldl_cons, hm, List.filter_cons, Option.isSome_none,
          Bool.false_eq_true, if_neg, ih]; simp [hm]
      | some q =>
        simp only [List.foldl_cons, hm, ih]
        simp [hm, List.filter_cons, subIndexOf, weightOf, Prod.ext_iff]
        constructor <;> ring
  unfold rowTotals contributingMetals
  rw [key]
  simp

theorem weightOf_pos (m : Metal) : 0 < weightOf m := by
  cases m <;> norm_num [weightOf, Metal.standard]

theorem rowTotals_snd_pos_iff (cols : List String) (r : List CellVal) :
    0 < (rowTotals cols r).2 ↔ contributingMetals cols r ≠ [] := by
  rw [rowTotals_eq]
  constructor
  · intro h hc
    rw [hc] at h
    simp at h
  · intro h
    apply List.sum_pos
    · intro x hx
      obtain ⟨m, _, rfl⟩ := List.mem_map.mp hx
      exact weightOf_pos m
    · simp [h]

theorem every_metal_in_STANDARDS (m : Metal) : m ∈ STANDARDS := by
  cases m <;> decide

theorem hmpiRow_eq (cols : List String) (r : List CellVal) :
    hmpiRow cols r =
      (if contributingMetals cols r = [] then none else some (round2 (hmpiFormula cols r)),
       if contributingMetals cols r = [] then "No Data" else classify (hmpiFormula cols r)) := by
  unfold hmpiRow
  by_cases hc : contributingMetals cols r = []
  · rw [if_neg, if_pos hc, if_pos hc]
    rw [rowTotals_snd_pos_iff]
    simp [hc]
  · rw [if_pos, if_neg hc, if_neg hc, hmpiFormula]
    · rw [rowTotals_eq]
    · exact (rowTotals_snd_pos_iff cols r).mpr hc

theorem calc_row_eq (df : DataFrame) (i : ℕ) (r : List CellVal)
    (h : df.rows[i]? = some r) :
    (calculate_hmpi df).rows[i]? =
      some (cleanRow df.cols r ++
        [hmpiCell (if contributingMetals df.cols (cleanRow df.cols r) = [] then none
            else some (round2 (hmpiFormula df.cols (cleanRow df.cols r)))),
         CellVal.text (if contributingMetals df.cols (cleanRow df.cols r) = [] then "No Data"
            else classify (hmpiFormula df.cols (cleanRow df.cols r)))]) := by
  show (df.rows.map (enhanceRow df.cols))[i]? = _
  rw [List.getElem?_map, h]
  simp only [Option.map_some', enhanceRow]
  rw [hmpiRow_eq]

theorem contributing_empty_iff (cols : List String) (r : List CellVal) :
    contributingMetals cols r = [] ↔ ∀ m : Metal, metalValue cols r m = none := by
  constructor
  · intro hc m
    by_contra hm
    have hmem : m ∈ contributingMetals cols r := by
      unfold contributingMetals
      rw [List.mem_filter]
      refine ⟨every_metal_in_STANDARDS m, ?_⟩
      simpa [Option.isSome_iff_ne_none] using hm
    rw [hc] at hmem
    exact absurd hmem (List.not_mem_nil m)
  · intro hall
    unfold contributingMetals
    rw [List.filter_eq_nil_iff]
    intro m _
    simp [hall m]

/-- C1: for every input row the computed index is the weighted mean of the
sub-indices over exactly the recognized metals whose cleaned value is a
finite number above zero, rounded to two decimals; with no contributing
metal the HMPI cell is null and the label is No Data. The second conjunct
ties the no-contribution case to all fifteen recognized metals being absent,
zero, negative, non-finite or unparseable after cleaning. -/
theorem hmpi_per_row_weighted_mean (df : DataFrame) (i : ℕ) (r : List CellVal)
    (h : df.rows[i]? = some r) :
    ((calculate_hmpi df).rows[i]? =
      some (cleanRow df.cols r ++
        [hmpiCell (if contributingMetals df.cols (cleanRow df.cols r) = [] then none
            else some (round2 (hmpiFormula df.cols (cleanRow df.cols r)))),
         CellVal.text (if contributingMetals df.cols (cleanRow df.cols r) = [] then "No Data"
            else classify (hmpiFormula df.cols (cleanRow df.cols r)))])) ∧
    (contributingMetals df.cols (cleanRow df.cols r) = [] ↔
      ∀ m : Metal, metalValue df.cols (cleanRow df.cols r) m = none) :=
  ⟨calc_row_eq df i r h, contributing_empty_iff df.cols (cleanRow df.cols r)⟩

def dfC1 : DataFrame :=
  ⟨["Latitude", "Longitude", "City", "Lead", "Cadmium"],
   [[CellVal.num 13, CellVal.num 80, CellVal.text ("A"), CellVal.num (2/100),
     CellVal.text ("oops")]]⟩

unseal Rat.add Rat.mul Rat.inv Rat.sub in
theorem hmpi_per_row_weighted_mean_witness :
    (calculate_hmpi dfC1).rows[0]? =
      some [CellVal.num 13, CellVal.num 80, CellVal.text ("A"), CellVal.num (2/100),
        CellVal.nan, CellVal.num 200, CellVal.text ("High Pollution")] := by
  rw [(hmpi_per_row_weighted_mean dfC1 0
    [CellVal.num 13, CellVal.num 80, CellVal.text ("A"), CellVal.num (2/100),
     CellVal.text ("oops")] rfl).1]
  decide

theorem classify_ranges (h : ℚ) :
    (classify h = "Low Pollution" ↔ h < 100) ∧
    (classify h = "Moderate Pollution" ↔ 100 ≤ h ∧ h < 200) ∧
    (classify h = "High Pollution" ↔ 200 ≤ h ∧ h < 300) ∧
    (classify h = "Very High Pollution" ↔ 300 ≤ h) := by
  have d1 : ("Low Pollution" : String) ≠ "Moderate Pollution" := by decide
  have d2 : ("Low Pollution" : String) ≠ "High Pollution" := by decide
  have d3 : ("Low Pollution" : String) ≠ "Very High Pollution" := by decide
  have d4 : ("Moderate Pollution" : String) ≠ "High Pollution" := by decide
  have d5 : ("Moderate Pollution" : String) ≠ "Very High Pollution" := by decide
  have d6 : ("High Pollution" : String) ≠ "Very High Pollution" := by decide
  unfold classify
  split_ifs with h1 h2 h3 <;>
    refine ⟨?_, ?_, ?_, ?_⟩ <;>
    simp only [d1, d2, d3, d4, d5, d6, d1.symm, d2.symm, d3.symm, d4.symm, d5.symm, d6.symm,
      iff_true, iff_false, eq_self_iff_true, true_iff, false_iff, not_and, not_lt, not_le] <;>
    first
      | exact h1
      | (constructor <;> intro <;> first | rfl | linarith)
      | (intro hx; exact absurd hx (by assumption))
      | (intro hx; linarith)
      | (refine ⟨by linarith, by linarith⟩)
      | constructor <;> intro <;> linarith
      | linarith

def dfC2 : DataFrame :=
  ⟨["Latitude", "Longitude", "City", "Lead"],
   [[CellVal.num 13, CellVal.num 80, CellVal.text ("B"), CellVal.num (999996/100000000)]]⟩

unseal Rat.add Rat.mul Rat.inv Rat.sub in
/-- C2 counterexample: a single Lead reading of 0.00999996 mg/L has unrounded
index 99.9996, so the stored two decimal index is 100.00 while the label is
computed from the unrounded value and stays Low Pollution; the claim says a
row with index 100.00 is Moderate Pollution. -/
theorem classification_rounding_counterexample :
    (calculate_hmpi dfC2).rows[0]? =
      some [CellVal.num 13, CellVal.num 80, CellVal.text ("B"),
        CellVal.num (999996/100000000), CellVal.num 100,
        CellVal.text ("Low Pollution")] ∧
    ("Low Pollution" : String) ≠ "Moderate Pollution" := by
  constructor
  · decide
  · decide

/-- C2 (amended): the classification label of every contributing row is
determined by the same half-open ranges applied to the UNROUNDED weighted
mean, not to the stored two decimal rounding of it; the boundary examples
hold at rows whose unrounded index takes exactly the boundary value. -/
theorem classification_half_open_on_unrounded (df : DataFrame) (i : ℕ) (r : List CellVal)
    (h : df.rows[i]? = some r)
    (hc : contributingMetals df.cols (cleanRow df.cols r) ≠ []) :
    ((calculate_hmpi df).rows[i]? =
      some (cleanRow df.cols r ++
        [CellVal.num (round2 (hmpiFormula df.cols (cleanRow df.cols r))),
         CellVal.text (classify (hmpiFormula df.cols (cleanRow df.cols r)))])) ∧
    (classify (hmpiFormula df.cols (cleanRow df.cols r)) = "Low Pollution" ↔
      hmpiFormula df.cols (cleanRow df.cols r) < 100) ∧
    (classify (hmpiFormula df.cols (cleanRow df.cols r)) = "Moderate Pollution" ↔
      100 ≤ hmpiFormula df.cols (cleanRow df.cols r) ∧
        hmpiFormula df.cols (cleanRow df.cols r) < 200) ∧
    (classify (hmpiFormula df.cols (cleanRow df.cols r)) = "High Pollution" ↔
      200 ≤ hmpiFormula df.cols (cleanRow df.cols r) ∧
        hmpiFormula df.cols (cleanRow df.cols r) < 300) ∧
    (classify (hmpiFormula df.cols (cleanRow df.cols r)) = "Very High Pollution" ↔
      300 ≤ hmpiFormula df.cols (cleanRow df.cols r)) ∧
    (classify (9999/100) = "Low Pollution" ∧ classify 100 = "Moderate Pollution" ∧
      classify (19999/100) = "Moderate Pollution" ∧ classify 200 = "High Pollution" ∧
      classify (29999/100) = "High Pollution" ∧ classify 300 = "Very High Pollution") := by
  obtain ⟨g1, g2, g3, g4⟩ := classify_ranges (hmpiFormula df.cols (cleanRow df.cols r))
  refine ⟨?_, g1, g2, g3, g4, ?_, ?_, ?_, ?_, ?_, ?_⟩
  · rw [calc_row_eq df i r h, if_neg hc, if_neg hc]
    rfl
  all_goals unfold classify
  · rw [if_pos (by norm_num)]
  · rw [if_neg (by norm_num), if_pos (by norm_num)]
  · rw [if_neg (by norm_num), if_pos (by norm_num)]
  · rw [if_neg (by norm_num), if_neg (by norm_num), if_pos (by norm_num)]
  · rw [if_neg (by norm_num), if_neg (by norm_num), if_pos (by norm_num)]
  · rw [if_neg (by norm_num), if_neg (by norm_num), if_neg (by norm_num)]

unseal Rat.add Rat.mul Rat.inv Rat.sub in
theorem classification_half_open_on_unrounded_witness :
    (calculate_hmpi dfC1).rows[0]? =
      some [CellVal.num 13, CellVal.num 80, CellVal.text ("A"), CellVal.num (2/100),
        CellVal.nan, CellVal.num 200, CellVal.text ("High Pollution")] ∧
    (200 : ℚ) ≤ hmpiFormula dfC1.cols (cleanRow dfC1.cols
      [CellVal.num 13, CellVal.num 80, CellVal.text ("A"), CellVal.num (2/100),
       CellVal.text ("oops")]) := by
  have hth := classification_half_open_on_unrounded dfC1 0
    [CellVal.num 13, CellVal.num 80, CellVal.text ("A"), CellVal.num (2/100),
     CellVal.text ("oops")] rfl (by decide)
  refine ⟨?_, ?_⟩
  · rw [hth.1]
    decide
  · exact (hth.2.2.2.1.mp (by decide)).1

/-- The store seen by the caller after a save call: the new store on success,
the unchanged input store on error (the SQLite connection context manager
rolls the transaction back when the body raises). -/
def storeAfterSave (db : DB) (e : Except String (DB × ℕ)) : DB :=
  match e with
  | Except.ok p => p.1
  | Except.error _ => db

def saveOk (e : Except String (DB × ℕ)) : Bool :=
  match e with
  | Except.ok _ => true
  | Except.error _ => false

def dfC7raw : DataFrame :=
  ⟨["Latitude", "Longitude", "City", "Aluminum"],
   [[CellVal.num 13, CellVal.num 80, CellVal.text ("A"), CellVal.num (1/10)]]⟩

unseal Rat.add Rat.mul Rat.inv Rat.sub in
/-- C7 counterexample: a batch whose only recognized metal column is
Aluminum uploads successfully, yet the stored metals list is empty, because
save_dataset filters against a hard coded ten name list that stops at
Manganese; the claim says the list equals the recognized columns present
with all fifteen recognized. -/
theorem metals_metadata_counterexample :
    saveOk (upload_csv emptyDB dfC7raw "d1" "f" "") = true ∧
    (storeAfterSave emptyDB (upload_csv emptyDB dfC7raw "d1" "f" "")).datasets.map
      (fun d => d.metadata.metalsAnalyzed) = [[]] ∧
    "Aluminum" ∈ (calculate_hmpi dfC7raw).cols ∧ isMetalCol "Aluminum" = true := by
  refine ⟨by decide, by decide, by decide, by decide⟩

theorem tenMetal_isMetal (c : String) (hc : c ∈ tenMetalNames) : isMetalCol c = true := by
  fin_cases hc <;> decide

/-- C7 (amended): for every successfully saved dataset, the stored metals
list equals the recognized metal columns present in the batch RESTRICTED to
the ten hard coded names Lead through Manganese; columns for the five newer
recognized metals (Aluminum, Antimony, Selenium, Uranium, Thallium) are
dropped from the metadata even when present. -/
theorem metals_metadata_ten (db : DB) (df : DataFrame) (n f d : String) (db2 : DB) (did : ℕ)
    (h : save_dataset db df n f d = Except.ok (db2, did)) :
    ∃ rec2, db2.datasets.getLast? = some rec2 ∧
      rec2.name = n ∧ rec2.id = did ∧
      rec2.metadata.metalsAnalyzed =
        df.cols.filter (fun c => isMetalCol c && tenMetalNames.contains c) ∧
      ∀ c ∈ rec2.metadata.metalsAnalyzed, isMetalCol c = true := by
  unfold save_dataset at h
  split at h
  · exact absurd h (by simp)
  · split at h
    · rw [Except.ok.injEq, Prod.mk.injEq] at h
      obtain ⟨hdb, hdid⟩ := h
      refine ⟨⟨db.nextDatasetId, n, d, f, df.rows.length, serializeDF df, mkMetadata df⟩,
        ?_, rfl, hdid, ?_, ?_⟩
      · rw [← hdb]
        simp [update_city_summaries, List.getLast?_concat]
      · show (mkMetadata df).metalsAnalyzed = _
        unfold mkMetadata
        simp only
        apply List.filter_congr
        intro c _
        cases hten : tenMetalNames.contains c with
        | false => simp [hten]
        | true =>
            have hmem : c ∈ tenMetalNames := by simpa using hten
            simp [hten, tenMetal_isMetal c hmem]
      · intro c hcm
        show isMetalCol c = true
        unfold mkMetadata at hcm
        simp only [List.mem_filter] at hcm
        exact tenMetal_isMetal c (by simpa using hcm.2)
    · exact absurd h (by simp)

def dfC7ok : DataFrame :=
  ⟨["Latitude", "Longitude", "City", "Lead"],
   [[CellVal.num 13, CellVal.num 80, CellVal.text ("A"), CellVal.num (2/100)]]⟩

unseal Rat.add Rat.mul Rat.inv Rat.sub in
theorem metals_metadata_ten_witness :
    ∃ db2 did rec2, save_dataset emptyDB dfC7ok "d" "f" "" = Except.ok (db2, did) ∧
      db2.datasets.getLast? = some rec2 ∧
      rec2.metadata.metalsAnalyzed =
        dfC7ok.cols.filter (fun c => isMetalCol c && tenMetalNames.contains c) := by
  cases he : save_dataset emptyDB dfC7ok "d" "f" "" with
  | error e =>
      have hok : saveOk (save_dataset emptyDB dfC7ok "d" "f" "") = true := by decide
      rw [he] at hok
      exact absurd hok (by simp [saveOk])
  | ok p =>
      obtain ⟨db2, did⟩ := p
      obtain ⟨rec2, h1, _, _, h4, _⟩ :=
        metals_metadata_ten emptyDB dfC7ok "d" "f" "" db2 did he
      exact ⟨db2, did, rec2, rfl, h1, h4⟩

def dfC3 : DataFrame :=
  ⟨["Latitude", "Longitude", "City", "Lead"],
   [[CellVal.num 13, CellVal.num 80, CellVal.text ("A"), CellVal.num (2/100)]]⟩

unseal Rat.add Rat.mul Rat.inv Rat.sub in
/-- C3: evaluation of the save and rebuild path at a one row batch whose
index is 200. The upload succeeds, a dataset sample with a non-null index is
persisted and the dataset write path keeps the legacy samples table, which
update_city_summaries aggregates, empty, so the rebuilt summary table stays
empty rather than holding one row for the saved city as the claim states. -/
theorem summary_not_rebuilt_from_saved_samples :
    saveOk (upload_csv emptyDB dfC3 "d" "f" "") = true ∧
    (storeAfterSave emptyDB (upload_csv emptyDB dfC3 "d" "f" "")).datasetSamples.map
      (fun s => s.hmpi) = [some 200] ∧
    (storeAfterSave emptyDB (upload_csv emptyDB dfC3 "d" "f" "")).cities.map
      (fun c => c.name) = ["A"] ∧
    (storeAfterSave emptyDB (upload_csv emptyDB dfC3 "d" "f" "")).samples = [] ∧
    (storeAfterSave emptyDB (upload_csv emptyDB dfC3 "d" "f" "")).citySummary = [] ∧
    rebuildSummary (storeAfterSave emptyDB (upload_csv emptyDB dfC3 "d" "f" "")).samples
      = [] := by
  refine ⟨by decide, by decide, by decide, by decide, by decide, by decide⟩

theorem save_dataset_ok_shape (db : DB) (df : DataFrame) (n f d : String) (db2 : DB) (did : ℕ)
    (h : save_dataset db df n f d = Except.ok (db2, did)) :
    did = db.nextDatasetId ∧
    db2.datasets = db.datasets ++
      [⟨db.nextDatasetId, n, d, f, df.rows.length, serializeDF df, mkMetadata df⟩] := by
  unfold save_dataset at h
  split at h
  · exact absurd h (by simp)
  · split at h
    · rw [Except.ok.injEq, Prod.mk.injEq] at h
      obtain ⟨hdb, hdid⟩ := h
      refine ⟨hdid.symm, ?_⟩
      rw [← hdb]
      rfl
    · exact absurd h (by simp)

/-- C6: uploading a batch stores the serialized enhanced frame, and
downloading the dataset returns exactly that stored string, with the columns
being the input columns plus HMPI and Classification and the row count
unchanged; the download path does not recompute anything. The freshness
hypothesis says no stored dataset already carries the next rowid, which
every store built by the write paths satisfies. -/
theorem upload_download_roundtrip (db : DB) (df : DataFrame) (n f d : String)
    (db2 : DB) (did : ℕ)
    (hfresh : ∀ rec2 ∈ db.datasets, rec2.id ≠ db.nextDatasetId)
    (h : upload_csv db df n f d = Except.ok (db2, did)) :
    download_dataset_csv db2 did = some (serializeDF (calculate_hmpi df)) ∧
    (calculate_hmpi df).cols = df.cols ++ ["HMPI", "Classification"] ∧
    (calculate_hmpi df).rows.length = df.rows.length := by
  refine ⟨?_, rfl, by simp [calculate_hmpi]⟩
  unfold upload_csv at h
  split at h
  · rename_i df2 heq
    have hdf2 : df2 = calculate_hmpi df := by
      unfold process_csv_data at heq
      split at heq
      · split at heq
        · rw [Except.ok.injEq] at heq
          exact heq.symm
        · exact absurd heq (by simp)
      · exact absurd heq (by simp)
    subst hdf2
    obtain ⟨hdid, hds⟩ := save_dataset_ok_shape db (calculate_hmpi df) n f d db2 did h
    unfold download_dataset_csv
    rw [hds, List.find?_append]
    have hnone : db.datasets.find? (fun rec2 => rec2.id == did) = none := by
      rw [List.find?_eq_none]
      intro rec2 hmem
      simp only [beq_iff_eq]
      rw [hdid]
      exact hfresh rec2 hmem
    rw [hnone]
    simp [List.find?, hdid]
  · exact absurd h (by simp)

def dfC6 : DataFrame :=
  ⟨["Latitude", "Longitude", "City", "Zinc"],
   [[CellVal.num 13, CellVal.num 80, CellVal.text ("A"), CellVal.num 6]]⟩

unseal Rat.add Rat.mul Rat.inv Rat.sub in
theorem upload_download_roundtrip_witness :
    ∃ db2 did, upload_csv emptyDB dfC6 "d" "f" "" = Except.ok (db2, did) ∧
      download_dataset_csv db2 did = some (serializeDF (calculate_hmpi dfC6)) ∧
      (calculate_hmpi dfC6).rows.length = dfC6.rows.length := by
  cases he : upload_csv emptyDB dfC6 "d" "f" "" with
  | error e =>
      have hok : saveOk (upload_csv emptyDB dfC6 "d" "f" "") = true := by decide
      rw [he] at hok
      exact absurd hok (by simp [saveOk])
  | ok p =>
      obtain ⟨db2, did⟩ := p
      obtain ⟨h1, _, h3⟩ :=
        upload_download_roundtrip emptyDB dfC6 "d" "f" "" db2 did (by simp [emptyDB]) he
      exact ⟨db2, did, rfl, h1, h3⟩

/-- Cells the claim calls invalid: negative, non-finite, or unparseable. -/
def invalidCell : CellVal → Bool
  | CellVal.num q => decide (q < 0)
  | CellVal.inf => true
  | CellVal.neginf => true
  | CellVal.text _ => true
  | CellVal.nan => false

theorem cleanCell_of_invalid (cell : CellVal) (h : invalidCell cell = true) :
    cleanCell cell = CellVal.nan := by
  cases cell with
  | num q =>
      simp only [invalidCell, decide_eq_true_eq] at h
      simp [cleanCell, not_le.mpr h]
  | nan => simp [invalidCell] at h
  | inf => rfl
  | neginf => rfl
  | text s => rfl

theorem cleanRow_cell (cols : List String) (r : List CellVal) (j : ℕ) (c : String)
    (cell : CellVal) (hc : cols[j]? = some c) (hcell : r[j]? = some cell) :
    (cleanRow cols r)[j]? = some (if isMetalCol c then cleanCell cell else cell) := by
  unfold cleanRow
  rw [List.getElem?_zipWith, hc, hcell]

/-- C10: the persisted payload is the serialization of the cleaned enhanced
frame: uploading stores serializeDF of the enhanced batch; in that batch an
invalid cell of a recognized metal column has become NaN, which serializes
to the empty field, every non metal cell is carried over unchanged, the row
order and count are unchanged and the two computed columns are appended. -/
theorem persisted_payload_cleaned (df : DataFrame) (i : ℕ) (r : List CellVal)
    (h : df.rows[i]? = some r) :
    ((calculate_hmpi df).rows.length = df.rows.length) ∧
    ((calculate_hmpi df).rows[i]? =
      some (cleanRow df.cols r ++
        [hmpiCell (if contributingMetals df.cols (cleanRow df.cols r) = [] then none
            else some (round2 (hmpiFormula df.cols (cleanRow df.cols r)))),
         CellVal.text (if contributingMetals df.cols (cleanRow df.cols r) = [] then "No Data"
            else classify (hmpiFormula df.cols (cleanRow df.cols r)))])) ∧
    (∀ (j : ℕ) (c : String) (cell : CellVal), df.cols[j]? = some c → r[j]? = some cell →
      (isMetalCol c = true → invalidCell cell = true →
        (cleanRow df.cols r)[j]? = some CellVal.nan ∧ renderCell CellVal.nan = "") ∧
      (isMetalCol c = false → (cleanRow df.cols r)[j]? = some cell)) ∧
    (∀ db n f d db2 did, save_dataset db (calculate_hmpi df) n f d = Except.ok (db2, did) →
      ∃ rec2, db2.datasets.getLast? = some rec2 ∧
        rec2.enhancedCsv = serializeDF (calculate_hmpi df)) := by
  refine ⟨by simp [calculate_hmpi], calc_row_eq df i r h, ?_, ?_⟩
  · intro j c cell hc hcell
    constructor
    · intro hm hinv
      rw [cleanRow_cell df.cols r j c cell hc hcell, hm]
      simp [cleanCell_of_invalid cell hinv, renderCell]
    · intro hm
      rw [cleanRow_cell df.cols r j c cell hc hcell, hm]
      simp
  · intro db n f d db2 did hsave
    obtain ⟨_, hds⟩ := save_dataset_ok_shape db (calculate_hmpi df) n f d db2 did hsave
    exact ⟨_, by rw [hds, List.getLast?_concat], rfl⟩

def dfC10 : DataFrame :=
  ⟨["Latitude", "Longitude", "City", "Lead", "Iron"],
   [[CellVal.num 13, CellVal.num 80, CellVal.text ("A"), CellVal.num (-5),
     CellVal.num (3/10)]]⟩

unseal Rat.add Rat.mul Rat.inv Rat.sub in
theorem persisted_payload_cleaned_witness :
    (cleanRow dfC10.cols
        [CellVal.num 13, CellVal.num 80, CellVal.text ("A"), CellVal.num (-5),
         CellVal.num (3/10)])[3]? = some CellVal.nan ∧
    (cleanRow dfC10.cols
        [CellVal.num 13, CellVal.num 80, CellVal.text ("A"), CellVal.num (-5),
         CellVal.num (3/10)])[2]? = some (CellVal.text ("A")) ∧
    (calculate_hmpi dfC10).rows.length = dfC10.rows.length := by
  have hth := persisted_payload_cleaned dfC10 0
    [CellVal.num 13, CellVal.num 80, CellVal.text ("A"), CellVal.num (-5),
     CellVal.num (3/10)] rfl
  obtain ⟨hlen, _, hcells, _⟩ := hth
  refine ⟨?_, ?_, hlen⟩
  · exact ((hcells 3 ("Lead") (CellVal.num (-5)) rfl rfl).1 (by decide) (by decide)).1
  · exact (hcells 2 ("City") (CellVal.text ("A")) rfl rfl).2 (by decide)

def rowC4blank : List CellVal :=
  [CellVal.num 0, CellVal.num 0, CellVal.nan, CellVal.num (2/100)]

def dfC4 : DataFrame :=
  ⟨["Latitude", "Longitude", "City", "Lead"],
   [[CellVal.num 0, CellVal.num 0, CellVal.text ("A"), CellVal.num (2/100)],
    rowC4blank]⟩

unseal Rat.add Rat.mul Rat.inv Rat.sub in
/-- C4 counterexample: the second row of the batch has a missing city label
and the store holds no city at all before the call, yet save_dataset
succeeds and persists both rows, because the first row of the same batch
created a city inside the proximity box before the blank row was reached. -/
theorem blank_city_counterexample :
    dfC4.rows[1]? = some rowC4blank ∧
    cityLabel (getCell dfC4.cols rowC4blank ("City")) = none ∧
    findNearbyCity emptyDB.cities 0 0 = none ∧
    cellNum (getCell dfC4.cols rowC4blank ("Latitude")) = some 0 ∧
    cellNum (getCell dfC4.cols rowC4blank ("Longitude")) = some 0 ∧
    saveOk (save_dataset emptyDB dfC4 "d" "f" "") = true ∧
    (storeAfterSave emptyDB (save_dataset emptyDB dfC4 "d" "f" "")).datasetSamples.length
      = 2 ∧
    (storeAfterSave emptyDB (save_dataset emptyDB dfC4 "d" "f" "")).datasets.length = 1 := by
  refine ⟨by decide, by decide, by decide, by decide, by decide, by decide, by decide,
    by decide⟩

/-- Witness of the condition under which the save loop reaches a row whose
city label is missing or blank while no city of the store state AT THAT
MOMENT (after the earlier rows of the batch were resolved) lies inside the
proximity box of the row. -/
inductive BlankAborts (cols : List String) :
    List (List CellVal) → List City → ℕ → Prop
  | here (r : List CellVal) (rs : List (List CellVal)) (cities : List City) (nid : ℕ)
      (lat lon : ℚ) :
      cellNum (getCell cols r ("Latitude")) = some lat →
      cellNum (getCell cols r ("Longitude")) = some lon →
      findNearbyCity cities lat lon = none →
      cityLabel (getCell cols r ("City")) = none →
      BlankAborts cols (r :: rs) cities nid
  | there (r : List CellVal) (rs : List (List CellVal)) (cities : List City) (nid : ℕ)
      (lat lon : ℚ) (cs2 : List City) (nid2 cid : ℕ) :
      cellNum (getCell cols r ("Latitude")) = some lat →
      cellNum (getCell cols r ("Longitude")) = some lon →
      resolveCityId cities nid lat lon (getCell cols r ("City")) =
        Except.ok (cs2, nid2, cid) →
      BlankAborts cols rs cs2 nid2 →
      BlankAborts cols (r :: rs) cities nid

theorem resolveRows_error_of_blank (cols : List String) (rows : List (List CellVal))
    (cities : List City) (nid : ℕ) (h : BlankAborts cols rows cities nid) :
    ∃ msg, resolveRows cols rows cities nid = Except.error msg := by
  induction h with
  | here r rs cities nid lat lon hlat hlon hnear hblank =>
      have hcity : resolveCityId cities nid lat lon (getCell cols r ("City")) =
          Except.error ("City name is required but empty or missing") := by
        unfold resolveCityId
        simp only [hnear, hblank]
      refine ⟨"City name is required but empty or missing", ?_⟩
      unfold resolveRows
      simp only [hlat, hlon, hcity]
  | there r rs cities nid lat lon cs2 nid2 cid hlat hlon hres _ ih =>
      obtain ⟨msg, hmsg⟩ := ih
      refine ⟨msg, ?_⟩
      unfold resolveRows
      simp only [hlat, hlon, hres, hmsg]

/-- C4 (amended): if, processing the batch rows in order against the
evolving city table, some row is reached whose city label is missing or
blank while no city of the store AT THAT POINT (including cities created by
earlier rows of the same batch) lies inside its proximity box, then
save_dataset fails with an error and the caller keeps the unchanged store:
no Dataset, DatasetSample or City of the batch survives. Relative to the
claim, the no-nearby-city condition must hold at the moment the row is
processed, not against the pre-call store alone. -/
theorem blank_city_aborts (db : DB) (df : DataFrame) (n f d : String)
    (h : BlankAborts df.cols df.rows db.cities db.nextCityId) :
    (∃ msg, save_dataset db df n f d = Except.error msg) ∧
    storeAfterSave db (save_dataset db df n f d) = db := by
  have herr : ∃ msg2, save_dataset db df n f d = Except.error msg2 := by
    unfold save_dataset
    split
    · exact ⟨"UNIQUE constraint failed on the dataset name", rfl⟩
    · obtain ⟨msg, hmsg⟩ :=
        resolveRows_error_of_blank df.cols df.rows db.cities db.nextCityId h
      rw [hmsg]
      exact ⟨msg, rfl⟩
  obtain ⟨msg2, hmsg2⟩ := herr
  refine ⟨⟨msg2, hmsg2⟩, ?_⟩
  rw [hmsg2]
  rfl

def dfC4w : DataFrame :=
  ⟨["Latitude", "Longitude", "City", "Lead"], [rowC4blank]⟩

unseal Rat.add Rat.mul Rat.inv Rat.sub in
theorem blank_city_aborts_witness :
    (∃ msg, save_dataset emptyDB dfC4w "d" "f" "" = Except.error msg) ∧
    storeAfterSave emptyDB (save_dataset emptyDB dfC4w "d" "f" "") = emptyDB := by
  apply blank_city_aborts
  exact BlankAborts.here rowC4blank [] [] 0 0 0 (by decide) (by decide) (by decide)
    (by decide)

/- City proximity invariant machinery for the dedup claim. -/

def separated (a b : City) : Prop :=
  ¬ (|a.lat - b.lat| < 1/20 ∧ |a.lon - b.lon| < 1/20)

def citiesSeparated (cities : List City) : Prop := List.Pairwise separated cities

theorem not_near_separated (lat lon : ℚ) (a : City) (h : near lat lon a = false) :
    ¬ (|a.lat - lat| < 1/20 ∧ |a.lon - lon| < 1/20) := by
  intro hab
  have h1 : near lat lon a = true := by
    rw [near, Bool.and_eq_true, decide_eq_true_eq, decide_eq_true_eq]
    exact ⟨hab.1, hab.2⟩
  rw [h1] at h
  exact absurd h (by simp)

theorem resolveCityId_cases (cities : List City) (nid : ℕ) (lat lon : ℚ) (cell : CellVal)
    (cs2 : List City) (nid2 cid : ℕ)
    (h : resolveCityId cities nid lat lon cell = Except.ok (cs2, nid2, cid)) :
    (cs2 = cities ∧ nid2 = nid ∧
      ∃ c, findNearbyCity cities lat lon = some c ∧ cid = c.id) ∨
    (findNearbyCity cities lat lon = none ∧ ∃ nm, cityLabel cell = some nm ∧
      cs2 = cities ++ [⟨nid, nm, "Unknown State", "Unknown Country", lat, lon⟩] ∧
      nid2 = nid + 1 ∧ cid = nid) := by
  unfold resolveCityId at h
  split at h
  · rename_i c hfind
    left
    rw [Except.ok.injEq, Prod.mk.injEq, Prod.mk.injEq] at h
    exact ⟨h.1.symm, h.2.1.symm, c, hfind, h.2.2.symm⟩
  · rename_i hfind
    split at h
    · rename_i nm hlabel
      right
      rw [Except.ok.injEq, Prod.mk.injEq, Prod.mk.injEq] at h
      exact ⟨hfind, nm, hlabel, h.1.symm, h.2.1.symm, h.2.2.symm⟩
    · exact absurd h (by simp)

theorem resolveCityId_sep (cities : List City) (nid : ℕ) (lat lon : ℚ) (cell : CellVal)
    (cs2 : List City) (nid2 cid : ℕ) (hsep : citiesSeparated cities)
    (h : resolveCityId cities nid lat lon cell = Except.ok (cs2, nid2, cid)) :
    citiesSeparated cs2 := by
  rcases resolveCityId_cases cities nid lat lon cell cs2 nid2 cid h with
    ⟨rfl, _, _⟩ | ⟨hnone, nm, _, rfl, _, _⟩
  · exact hsep
  · rw [citiesSeparated, List.pairwise_append]
    refine ⟨hsep, List.pairwise_singleton _ _, ?_⟩
    intro a ha b hb
    rw [List.mem_singleton] at hb
    subst hb
    have hnear : near lat lon a = false := by
      have hx := List.find?_eq_none.mp hnone a ha
      exact Bool.eq_false_iff.mpr hx
    exact not_near_separated lat lon a hnear

theorem resolveRows_sep (cols : List String) (rows : List (List CellVal)) :
    ∀ (cities : List City) (nid : ℕ) (cs2 : List City) (nid2 : ℕ) (rrs : List ResolvedRow),
      citiesSeparated cities →
      resolveRows cols rows cities nid = Except.ok (cs2, nid2, rrs) →
      citiesSeparated cs2 := by
  induction rows with
  | nil =>
      intro cities nid cs2 nid2 rrs hsep h
      unfold resolveRows at h
      rw [Except.ok.injEq, Prod.mk.injEq, Prod.mk.injEq] at h
      rw [← h.1]
      exact hsep
  | cons r rs ih =>
      intro cities nid cs2 nid2 rrs hsep h
      unfold resolveRows at h
      split at h
      · split at h
        · rename_i heq
          split at h
          · rename_i heq2
            rw [Except.ok.injEq, Prod.mk.injEq, Prod.mk.injEq] at h
            rw [← h.1]
            exact ih _ _ _ _ _ (resolveCityId_sep _ _ _ _ _ _ _ _ hsep heq) heq2
          · exact absurd h (by simp)
        · exact absurd h (by simp)
      · exact absurd h (by simp)

theorem save_dataset_cities (db : DB) (df : DataFrame) (n f d : String) (db2 : DB) (did : ℕ)
    (h : save_dataset db df n f d = Except.ok (db2, did)) :
    ∃ nid2 rrs, resolveRows df.cols df.rows db.cities db.nextCityId =
      Except.ok (db2.cities, nid2, rrs) := by
  unfold save_dataset at h
  split at h
  · exact absurd h (by simp)
  · split at h
    · rename_i cities2 nid2 rrs heq
      rw [Except.ok.injEq, Prod.mk.injEq] at h
      refine ⟨nid2, rrs, ?_⟩
      rw [← h.1]
      exact heq
    · exact absurd h (by simp)

theorem save_samples_cities (db : DB) (df : DataFrame) (date : ℕ) (db2 : DB)
    (h : save_samples db df date = Except.ok db2) :
    ∃ nid2 rrs, resolveRows df.cols df.rows db.cities db.nextCityId =
      Except.ok (db2.cities, nid2, rrs) := by
  unfold save_samples at h
  split at h
  · rename_i cities2 nid2 rrs heq
    rw [Except.ok.injEq] at h
    refine ⟨nid2, rrs, ?_⟩
    rw [← h]
    exact heq
  · exact absurd h (by simp)

theorem find_or_create_sep (db : DB) (geo : ℚ → ℚ → Option (String × String × String))
    (lat lon : ℚ) (hsep : citiesSeparated db.cities) :
    citiesSeparated (find_or_create_city db geo lat lon).1.cities := by
  unfold find_or_create_city
  split
  · exact hsep
  · rename_i hfind
    show citiesSeparated (db.cities ++ [_])
    rw [citiesSeparated, List.pairwise_append]
    refine ⟨hsep, List.pairwise_singleton _ _, ?_⟩
    intro a ha b hb
    rw [List.mem_singleton] at hb
    subst hb
    have hnear : near lat lon a = false :=
      Bool.eq_false_iff.mpr (List.find?_eq_none.mp hfind a ha)
    exact not_near_separated lat lon a hnear

theorem reachable_sep (db : DB) (h : Reachable db) : citiesSeparated db.cities := by
  induction h with
  | empty => exact List.Pairwise.nil
  | stepUpload db df n f d db2 did hr hsave ih =>
      obtain ⟨nid2, rrs, hres⟩ := save_dataset_cities db df n f d db2 did hsave
      exact resolveRows_sep df.cols df.rows db.cities db.nextCityId db2.cities nid2 rrs ih hres
  | stepSamples db df date db2 hr hsave ih =>
      obtain ⟨nid2, rrs, hres⟩ := save_samples_cities db df date db2 hsave
      exact resolveRows_sep df.cols df.rows db.cities db.nextCityId db2.cities nid2 rrs ih hres
  | stepFindOrCreate db geo lat lon hr ih => exact find_or_create_sep db geo lat lon ih
  | stepDelete db did hr ih => exact ih

theorem find?_first (p : City → Bool) (l1 : List City) (c : City) (l2 : List City)
    (hc : p c = true) (hl1 : ∀ b ∈ l1, p b = false) :
    List.find? p (l1 ++ c :: l2) = some c := by
  induction l1 with
  | nil => simpa using List.find?_cons_of_pos l2 hc
  | cons b bs ih =>
      rw [List.cons_append, List.find?_cons_of_neg]
      · exact ih (fun x hx => hl1 x (by simp [hx]))
      · simp [hl1 b (by simp)]

def dfC5 : DataFrame :=
  ⟨["Latitude", "Longitude", "City", "Lead"],
   [[CellVal.num (129/10), CellVal.num (775/10), CellVal.text ("P"), CellVal.num (2/100)],
    [CellVal.num (1293/100), CellVal.num (7752/100), CellVal.text ("Q"), CellVal.num (2/100)],
    [CellVal.num (131/10), CellVal.num (778/10), CellVal.text ("R"), CellVal.num (2/100)]]⟩

unseal Rat.add Rat.mul Rat.inv Rat.sub in
/-- C5: city resolution picks the first stored city whose center is inside
the 0.05 degree box, creates a new city (centered at the row point) only
when no stored city is inside the box, and therefore every store reachable
through the write paths keeps every two city centers at least 0.05 degrees
apart in latitude or in longitude; the sample points (12.900, 77.500) and
(12.930, 77.520) resolve to one shared city while (13.100, 77.800) gets a
second one. -/
theorem city_proximity_invariant :
    (∀ db : DB, Reachable db → citiesSeparated db.cities) ∧
    (∀ (cities : List City) (nid : ℕ) (lat lon : ℚ) (cell : CellVal)
       (l1 : List City) (c : City) (l2 : List City),
       cities = l1 ++ c :: l2 → near lat lon c = true →
       (∀ b ∈ l1, near lat lon b = false) →
       resolveCityId cities nid lat lon cell = Except.ok (cities, nid, c.id)) ∧
    (∀ (cities : List City) (nid : ℕ) (lat lon : ℚ) (cell : CellVal) (nm : String),
       (∀ b ∈ cities, near lat lon b = false) → cityLabel cell = some nm →
       resolveCityId cities nid lat lon cell =
         Except.ok (cities ++ [⟨nid, nm, "Unknown State", "Unknown Country", lat, lon⟩],
           nid + 1, nid)) ∧
    ((storeAfterSave emptyDB (save_dataset emptyDB dfC5 "d" "f" "")).cities.map
        (fun c => (c.name, c.lat, c.lon)) =
      [("P", 129/10, 775/10), ("R", 131/10, 778/10)] ∧
     (storeAfterSave emptyDB (save_dataset emptyDB dfC5 "d" "f" "")).datasetSamples.map
        (fun s => s.cityId) = [0, 0, 1]) := by
  refine ⟨reachable_sep, ?_, ?_, by decide, by decide⟩
  · intro cities nid lat lon cell l1 c l2 hsplit hc hl1
    subst hsplit
    have hfind : findNearbyCity (l1 ++ c :: l2) lat lon = some c :=
      find?_first (near lat lon) l1 c l2 hc hl1
    unfold resolveCityId
    simp only [hfind]
  · intro cities nid lat lon cell nm hall hlabel
    have hfind : findNearbyCity cities lat lon = none := by
      rw [findNearbyCity, List.find?_eq_none]
      intro b hb
      simp [hall b hb]
    unfold resolveCityId
    simp only [hfind, hlabel]

unseal Rat.add Rat.mul Rat.inv Rat.sub in
theorem city_proximity_invariant_witness :
    citiesSeparated emptyDB.cities ∧
    resolveCityId [⟨0, "P", "Unknown State", "Unknown Country", 129/10, 775/10⟩] 1
      (1293/100) (7752/100) (CellVal.text ("Q")) =
      Except.ok ([⟨0, "P", "Unknown State", "Unknown Country", 129/10, 775/10⟩], 1, 0) := by
  refine ⟨city_proximity_invariant.1 emptyDB Reachable.empty, ?_⟩
  exact city_proximity_invariant.2.1 _ 1 (1293/100) (7752/100) (CellVal.text ("Q"))
    [] ⟨0, "P", "Unknown State", "Unknown Country", 129/10, 775/10⟩ [] rfl (by decide)
    (by simp)

/-- C8: when both labels resolve to stored cities with at least one
non-null-index sample, compare reports the lower average city as cleaner
with difference the rounded absolute delta of the two (already rounded)
averages, and a tie verdict with difference 0 on equal averages, in
particular when a city is compared with itself; when the first label does
not resolve to a city with data the error names the first label, and when
only the second fails it names the second. -/
theorem compare_cities_verdict (db : DB) (geo : String → Option (ℚ × ℚ)) (l1 l2 : String) :
    (∀ (c1 : City) (st1 : CityStats) (c2 : City) (st2 : CityStats),
      get_city_data db geo l1 = CityLookup.withData c1 st1 →
      get_city_data db geo l2 = CityLookup.withData c2 st2 →
      ((st1.hmpiAverage < st2.hmpiAverage →
          compare_cities db geo l1 l2 = CompareResult.ok
            ⟨c1.name, st1, c2.name, st2, c1.name,
             round2 |st1.hmpiAverage - st2.hmpiAverage|⟩) ∧
       (st2.hmpiAverage < st1.hmpiAverage →
          compare_cities db geo l1 l2 = CompareResult.ok
            ⟨c1.name, st1, c2.name, st2, c2.name,
             round2 |st1.hmpiAverage - st2.hmpiAverage|⟩) ∧
       (st1.hmpiAverage = st2.hmpiAverage →
          compare_cities db geo l1 l2 = CompareResult.ok
            ⟨c1.name, st1, c2.name, st2,
             "Both cities have similar pollution levels", 0⟩))) ∧
    (l1 = l2 → ∀ (c1 : City) (st1 : CityStats),
      get_city_data db geo l1 = CityLookup.withData c1 st1 →
      compare_cities db geo l1 l2 = CompareResult.ok
        ⟨c1.name, st1, c1.name, st1, "Both cities have similar pollution levels", 0⟩) ∧
    ((∀ (c : City) (st : CityStats), get_city_data db geo l1 ≠ CityLookup.withData c st) →
      compare_cities db geo l1 l2 = CompareResult.err ("No data available for " ++ l1)) ∧
    (∀ (c1 : City) (st1 : CityStats),
      get_city_data db geo l1 = CityLookup.withData c1 st1 →
      (∀ (c : City) (st : CityStats), get_city_data db geo l2 ≠ CityLookup.withData c st) →
      compare_cities db geo l1 l2 = CompareResult.err ("No data available for " ++ l2)) := by
  refine ⟨?_, ?_, ?_, ?_⟩
  · intro c1 st1 c2 st2 h1 h2
    refine ⟨?_, ?_, ?_⟩
    · intro hlt
      unfold compare_cities
      simp only [h1, h2]
      rw [if_pos hlt, abs_sub_comm, abs_of_pos (sub_pos.mpr hlt)]
    · intro hlt
      unfold compare_cities
      simp only [h1, h2]
      rw [if_neg (lt_asymm hlt), if_pos hlt, abs_of_pos (sub_pos.mpr hlt)]
    · intro heq
      unfold compare_cities
      simp only [h1, h2]
      rw [if_neg (heq ▸ lt_irrefl st1.hmpiAverage),
        if_neg (heq ▸ lt_irrefl st1.hmpiAverage)]
  · intro heql c1 st1 h1
    have h2 : get_city_data db geo l2 = CityLookup.withData c1 st1 := heql ▸ h1
    unfold compare_cities
    simp only [h1, h2]
    rw [if_neg (lt_irrefl st1.hmpiAverage), if_neg (lt_irrefl st1.hmpiAverage)]
  · intro hne
    unfold compare_cities
    cases hl : get_city_data db geo l1 with
    | withData c st => exact absurd hl (hne c st)
    | noData c => rfl
    | geocoded lat lon => rfl
    | notFound => rfl
  · intro c1 st1 h1 hne
    cases hl : get_city_data db geo l2 with
    | withData c st => exact absurd hl (hne c st)
    | noData c => unfold compare_cities; simp only [h1, hl]
    | geocoded lat lon => unfold compare_cities; simp only [h1, hl]
    | notFound => unfold compare_cities; simp only [h1, hl]

def geoNone : String → Option (ℚ × ℚ) := fun _ => none

def cityAlpha : City := ⟨0, "Alpha", "S", "C", 0, 0⟩

def cityBeta : City := ⟨1, "Beta", "S", "C", 1, 1⟩

def dbC8 : DB :=
  { cities := [cityAlpha, cityBeta],
    samples := [⟨"s1", 0, 0, 0, some 150, some ("Moderate Pollution"), 1⟩,
                ⟨"s2", 1, 1, 1, some 220, some ("High Pollution"), 2⟩],
    citySummary := [], datasets := [], datasetSamples := [],
    nextCityId := 2, nextDatasetId := 0 }

unseal Rat.add Rat.mul Rat.inv Rat.sub in
theorem compare_cities_verdict_witness :
    compare_cities dbC8 geoNone "Alpha" "Beta" =
      CompareResult.ok
        ⟨"Alpha", ⟨1, 150, some ("Moderate Pollution"), 150, 150, 150⟩,
         "Beta", ⟨1, 220, some ("High Pollution"), 220, 220, 220⟩, "Alpha", 70⟩ := by
  have h1 : get_city_data dbC8 geoNone "Alpha" =
      CityLookup.withData cityAlpha ⟨1, 150, some ("Moderate Pollution"), 150, 150, 150⟩ := by
    decide
  have h2 : get_city_data dbC8 geoNone "Beta" =
      CityLookup.withData cityBeta ⟨1, 220, some ("High Pollution"), 220, 220, 220⟩ := by
    decide
  have hcmp :=
    ((compare_cities_verdict dbC8 geoNone "Alpha" "Beta").1 _ _ _ _ h1 h2).1 (by decide)
  rw [hcmp]
  decide

theorem mem_insertAsc (t c : City) (l : List City) (a : City) :
    a ∈ insertAscByDist t c l ↔ a = c ∨ a ∈ l := by
  induction l with
  | nil => simp [insertAscByDist]
  | cons b bs ih =>
      unfold insertAscByDist
      split
      · simp [List.mem_cons]
      · simp only [List.mem_cons, ih]
        tauto

theorem length_insertAsc (t c : City) (l : List City) :
    (insertAscByDist t c l).length = l.length + 1 := by
  induction l with
  | nil => rfl
  | cons b bs ih =>
      unfold insertAscByDist
      split
      · rfl
      · simp [ih]

theorem mem_sortByDist (t : City) (l : List City) (a : City) :
    a ∈ sortByDist t l ↔ a ∈ l := by
  induction l with
  | nil => simp [sortByDist]
  | cons b bs ih =>
      show a ∈ insertAscByDist t b (sortByDist t bs) ↔ _
      rw [mem_insertAsc]
      simp [ih, List.mem_cons]

theorem length_sortByDist (t : City) (l : List City) :
    (sortByDist t l).length = l.length := by
  induction l with
  | nil => rfl
  | cons b bs ih =>
      show (insertAscByDist t b (sortByDist t bs)).length = _
      rw [length_insertAsc, ih, List.length_cons]

theorem sorted_insertAsc (t c : City) (l : List City)
    (h : List.Pairwise (fun a b => distKey t a ≤ distKey t b) l) :
    List.Pairwise (fun a b => distKey t a ≤ distKey t b) (insertAscByDist t c l) := by
  induction l with
  | nil => simp [insertAscByDist]
  | cons b bs ih =>
      rw [List.pairwise_cons] at h
      obtain ⟨hb, hbs⟩ := h
      unfold insertAscByDist
      split
      · rename_i hlt
        rw [List.pairwise_cons]
        constructor
        · intro x hx
          rw [List.mem_cons] at hx
          rcases hx with rfl | hx
          · exact le_of_lt hlt
          · exact le_trans (le_of_lt hlt) (hb x hx)
        · exact List.pairwise_cons.mpr ⟨hb, hbs⟩
      · rename_i hnlt
        rw [List.pairwise_cons]
        constructor
        · intro x hx
          rw [mem_insertAsc] at hx
          rcases hx with rfl | hx
          · exact not_lt.mp hnlt
          · exact hb x hx
        · exact ih hbs

theorem sorted_sortByDist (t : City) (l : List City) :
    List.Pairwise (fun a b => distKey t a ≤ distKey t b) (sortByDist t l) := by
  induction l with
  | nil => exact List.Pairwise.nil
  | cons b bs ih => exact sorted_insertAsc t b _ ih

theorem round1_le_round1 (x y : ℚ) (h : x ≤ y) : round1 x ≤ round1 y := by
  unfold round1
  have hr : round (x * 10) ≤ round (y * 10) := by
    rw [round_eq, round_eq]
    exact Int.floor_le_floor (by linarith)
  have hc : ((round (x * 10) : ℤ) : ℚ) ≤ ((round (y * 10) : ℤ) : ℚ) := by exact_mod_cast hr
  linarith

def dbC9 : DB :=
  { cities := [⟨0, "Delhi", "S", "C", 0, 0⟩],
    samples := [⟨"s1", 0, 0, 0, some 150, some ("Moderate Pollution"), 1⟩],
    citySummary := [], datasets := [], datasetSamples := [],
    nextCityId := 1, nextDatasetId := 0 }

unseal Rat.add Rat.mul Rat.inv Rat.sub in
/-- C9 counterexample: the label Delh resolves, by substring match, to the
stored city Delhi, which has data; yet the nearby result for that label
contains Delhi itself, because the query excludes candidates by comparing
their name with the QUERIED LABEL, not with the resolved target city, and
LOWER(Delhi) differs from LOWER(Delh). The claim says the result holds only
cities other than the target. -/
theorem nearby_target_included_counterexample :
    findCityByLabel dbC9 "Delh" = some ⟨0, "Delhi", "S", "C", 0, 0⟩ ∧
    (get_nearby_cities dbC9 "Delh" 50).map (fun l => l.map (fun e => e.city)) =
      some ["Delhi"] := by
  constructor
  · decide
  · decide

/-- C9 (amended): for a label resolving to stored city t, the nearby result
exists and contains at most 10 entries, is weakly sorted by the rounded
Manhattan degree distance times 111, and every entry comes from a stored
city inside the radius box with at least one non-null-index sample whose
LOWERED NAME DIFFERS FROM THE LOWERED QUERIED LABEL (so the target itself is
excluded only when the label matches its name exactly, case insensitively);
when at most 10 cities pass the selection, every passing city appears. -/
theorem nearby_box_sorted_cap (db : DB) (label : String) (radiusKm : ℚ) (t : City)
    (ht : findCityByLabel db label = some t) :
    ∃ res, get_nearby_cities db label radiusKm = some res ∧
      res.length ≤ 10 ∧
      List.Pairwise (fun a b => a.distanceKm ≤ b.distanceKm) res ∧
      (∀ e ∈ res, ∃ c, c ∈ db.cities ∧ e = entryOf db t c ∧
        strLower c.name ≠ strLower label ∧
        |c.lat - t.lat| ≤ radiusKm / 111 ∧ |c.lon - t.lon| ≤ radiusKm / 111 ∧
        ∃ s ∈ db.samples, s.cityId = c.id ∧ s.hmpi.isSome = true) ∧
      ((db.cities.filter (nearbyFilter db t label (radiusKm / 111))).length ≤ 10 →
        ∀ c ∈ db.cities, nearbyFilter db t label (radiusKm / 111) c = true →
          entryOf db t c ∈ res) := by
  refine ⟨((sortByDist t (db.cities.filter
      (nearbyFilter db t label (radiusKm / 111)))).take 10).map (entryOf db t), ?_, ?_, ?_, ?_, ?_⟩
  · unfold get_nearby_cities
    rw [ht]
  · rw [List.length_map]
    exact le_trans (List.length_take_le 10 _) (le_refl 10)
  · have hs := sorted_sortByDist t (db.cities.filter (nearbyFilter db t label (radiusKm / 111)))
    have hst := hs.sublist (List.take_sublist 10 _)
    refine List.Pairwise.map (entryOf db t) ?_ hst
    intro a b hab
    show round1 (distKey t a) ≤ round1 (distKey t b)
    exact round1_le_round1 _ _ hab
  · intro e he
    rw [List.mem_map] at he
    obtain ⟨c, hc, rfl⟩ := he
    have hc2 : c ∈ sortByDist t (db.cities.filter (nearbyFilter db t label (radiusKm / 111))) :=
      (List.take_sublist 10 _).mem hc
    rw [mem_sortByDist, List.mem_filter] at hc2
    obtain ⟨hmem, hfilt⟩ := hc2
    unfold nearbyFilter at hfilt
    rw [Bool.and_eq_true, Bool.and_eq_true, Bool.and_eq_true] at hfilt
    obtain ⟨⟨⟨hlat, hlon⟩, hname⟩, hdata⟩ := hfilt
    refine ⟨c, hmem, rfl, ?_, ?_, ?_, ?_⟩
    · exact bne_iff_ne.mp hname
    · exact of_decide_eq_true hlat
    · exact of_decide_eq_true hlon
    · unfold hasDataSample at hdata
      rw [List.any_eq_true] at hdata
      obtain ⟨s, hsmem, hsprop⟩ := hdata
      rw [Bool.and_eq_true] at hsprop
      exact ⟨s, hsmem, beq_iff_eq.mp hsprop.1, hsprop.2⟩
  · intro hlen c hcmem hcfilt
    have hfl : c ∈ db.cities.filter (nearbyFilter db t label (radiusKm / 111)) :=
      List.mem_filter.mpr ⟨hcmem, hcfilt⟩
    rw [← mem_sortByDist t _ c] at hfl
    have htake : (sortByDist t (db.cities.filter
        (nearbyFilter db t label (radiusKm / 111)))).take 10 =
        sortByDist t (db.cities.filter (nearbyFilter db t label (radiusKm / 111))) := by
      apply List.take_of_length_le
      rw [length_sortByDist]
      exact hlen
    rw [htake]
    exact List.mem_map_of_mem (entryOf db t) hfl

unseal Rat.add Rat.mul Rat.inv Rat.sub in
theorem nearby_box_sorted_cap_witness :
    ∃ res, get_nearby_cities dbC8 "Alpha" 500 = some res ∧ res.length ≤ 10 ∧
      List.Pairwise (fun a b => a.distanceKm ≤ b.distanceKm) res := by
  obtain ⟨res, h1, h2, h3, _, _⟩ :=
    nearby_box_sorted_cap dbC8 "Alpha" 500 cityAlpha (by decide)
  exact ⟨res, h1, h2, h3⟩
